import Mathlib

/-!
Verification development for the motors-sync synchronization module
(src/motors_sync.py). The Python source is shallowly embedded: floats are
modelled as rationals (ℚ) where the computation is algebraic and as reals (ℝ)
for the transcendental step models, mutable objects become explicit state
records, and the measurement stream is an explicit oracle list.
-/

set_option maxRecDepth 4000

namespace MSync

/-- Python int() applied to a float: truncation toward zero, as used on the
result of model_solve in MotorsSync._single_sync (line 841). -/
def pyInt (q : ℚ) : Int := if 0 ≤ q then ⌊q⌋ else ⌈q⌉

/-- Rounding to the nearest integer with ties to even, the rounding mode of
np.around. -/
def roundHalfEven (q : ℚ) : Int :=
  let f := ⌊q⌋
  if q - f < 1 / 2 then f
  else if 1 / 2 < q - f then f + 1
  else if f % 2 = 0 then f else f + 1

/-- np.around(x, 2): round to two decimal places, ties to even. -/
def around2 (q : ℚ) : ℚ := (roundHalfEven (q * 100) : ℚ) / 100

/-- np.mean of a list of rationals (the empty list yields 0, since division by zero is 0 here). -/
def npMean (l : List ℚ) : ℚ := l.sum / l.length

/-- Insertion of a value into an ascending sorted list, helper for np.sort
and np.median. -/
def insertSorted (x : ℚ) : List ℚ → List ℚ
  | [] => [x]
  | y :: ys => if x ≤ y then x :: y :: ys else y :: insertSorted x ys

/-- np.sort: ascending sort of a rational list. -/
def sortAsc (l : List ℚ) : List ℚ := l.foldr insertSorted []

/-- np.median of a list: middle element of the sorted list for odd length,
mean of the two middle elements for even length. -/
def listMedian (l : List ℚ) : ℚ :=
  let s := sortAsc l
  if l.length % 2 = 1 then s.getD (l.length / 2) 0
  else (s.getD (l.length / 2 - 1) 0 + s.getD (l.length / 2) 0) / 2

/-- The median chip filter built in MotionAxis._init_chip_filter
(lines 436-438): for each i in range(w, len(samples) - w) take the median of
the slice samples[i - w : i + w + 1], where w is the configured median_size.
The slices are (2*w + 1) wide, so the configured value acts as a half-width. -/
def medianFilter (w : ℕ) (samples : List ℚ) : List ℚ :=
  (List.range' w (samples.length - 2 * w)).map
    (fun i => listMedian ((samples.drop (i - w)).take (2 * w + 1)))

/-- The identity chip filter (lambda data: data, line 57) installed when the
accelerometer sample rate is at or below ACCEL_FILTER_THRESHOLD. -/
def identityFilter : List ℚ → List ℚ := fun data => data

/-- State of KalmanLiteFilter: scalar transition A, observation H, process
noise Q, observation noise R, current covariance P and estimate x, and the
saved initial covariance st_p and estimate st_x. The field self.I, set to 1
in the constructor and never changed, is inlined as the literal 1. -/
structure KalmanLiteFilter where
  A : ℚ
  H : ℚ
  Q : ℚ
  R : ℚ
  P : ℚ
  x : ℚ
  st_p : ℚ
  st_x : ℚ
  deriving DecidableEq

/-- KalmanLiteFilter.__init__(A, H, Q, R, P0, x0): P and st_p start at P0,
x and st_x start at x0. -/
def KalmanLiteFilter.init (A H Q R P0 x0 : ℚ) : KalmanLiteFilter :=
  { A := A, H := H, Q := Q, R := R, P := P0, x := x0, st_p := P0, st_x := x0 }

/-- KalmanLiteFilter.flush_data: reseed the estimate and covariance from the
saved initial values. -/
def KalmanLiteFilter.flush_data (s : KalmanLiteFilter) : KalmanLiteFilter :=
  { s with x := s.st_x, P := s.st_p }

/-- KalmanLiteFilter.update with predict() inlined. Note the source computes
the gain as K = P * H * S, multiplying by the innovation covariance S
instead of dividing by it (line 1222). -/
def KalmanLiteFilter.update (s : KalmanLiteFilter) (z : ℚ) : ℚ × KalmanLiteFilter :=
  let xp := s.A * s.x
  let Pp := s.A * s.P * s.A + s.Q
  let y := z - s.H * xp
  let S := s.H * Pp * s.H + s.R
  let K := Pp * s.H * S
  let xn := xp + K * y
  let Pn := (1 - K * s.H) * Pp
  (xn, { s with x := xn, P := Pn })

/-- Fold KalmanLiteFilter.update over the samples, collecting the emitted
estimates in order. -/
def kalmanRun (s : KalmanLiteFilter) : List ℚ → List ℚ × KalmanLiteFilter
  | [] => ([], s)
  | z :: zs =>
    let r := s.update z
    let rest := kalmanRun r.2 zs
    (r.1 :: rest.1, rest.2)

/-- KalmanLiteFilter.process_samples: flush_data, then update on each sample
in order; the emitted estimates are the returned array, and the mutated
filter object is carried alongside. -/
def KalmanLiteFilter.process_samples (s : KalmanLiteFilter) (zs : List ℚ) :
    List ℚ × KalmanLiteFilter :=
  kalmanRun s.flush_data zs

/-- One step of the estimator recurrence exactly as the spec states it:
predict, then gain K = Pp*H / (H*Pp*H + R) with Pp the predicted covariance,
returning the emitted estimate and the updated (x, P). This is the
comparison definition written from the words of the spec, not from the
source. -/
def specKalmanStep (A H Q R x P z : ℚ) : ℚ × ℚ :=
  let xp := A * x
  let Pp := A * P * A + Q
  let K := Pp * H / (H * Pp * H + R)
  let xn := xp + K * (z - H * xp)
  let Pn := (1 - K * H) * Pp
  (xn, Pn)

/-- The output sequence of the spec recurrence started from (x0, P0). -/
def specKalmanOutputs (A H Q R : ℚ) (x P : ℚ) : List ℚ → List ℚ
  | [] => []
  | z :: zs =>
    let r := specKalmanStep A H Q R x P z
    r.1 :: specKalmanOutputs A H Q R r.1 r.2 zs

/-- Result of the polling loop in AccelHelper._wait_samples and
EncoderHelper._wait_samples: returned normally, raised the no-data error, or
still spinning. -/
inductive WaitResult where
  | ok : WaitResult
  | timeoutErr : WaitResult
  | running : WaitResult
  deriving DecidableEq

/-- One iteration of the wait-loop body (lines 85-94 / 210-219): the guard
requires a nonempty sample buffer and a set request_end_time before either
the return branch or the timeout branch can be reached. -/
def waitPoll (lim now : ℚ) (endTime lastMsg : Option ℚ) : WaitResult :=
  match lastMsg, endTime with
  | some last, some e =>
    if last > e then .ok
    else if now > lim then .timeoutErr
    else .running
  | _, _ => .running

/-- The polling loop of _wait_samples, fuel-bounded: clock n is the reactor
monotonic time observed at poll n and buffer n is the newest buffered sample
timestamp at poll n (none when the buffer is empty); lim is the absolute
deadline monotonic() + 5 computed before the loop. -/
def waitSamples (lim : ℚ) (endTime : Option ℚ) (clock : ℕ → ℚ)
    (buffer : ℕ → Option ℚ) : ℕ → ℕ → WaitResult
  | 0, _ => .running
  | fuel + 1, n =>
    match waitPoll lim (clock n) endTime (buffer n) with
    | .running => waitSamples lim endTime clock buffer fuel (n + 1)
    | r => r

/-- A clock advancing one time unit per poll, for concrete wait traces. -/
def natClock : ℕ → ℚ := fun n => (n : ℚ)

/-- A sample buffer that never receives any sample. -/
def emptyBuffer : ℕ → Option ℚ := fun _ => none

/-- Movement direction label (move_dir[1]); the unknown label forces
re-detection. -/
inductive DirLabel where
  | unknown
  | forward
  | backward
  deriving DecidableEq

/-- Sensor helper variant wired into the axis: AccelHelper (vibration) or
EncoderHelper (rotary position). -/
inductive Chip where
  | accel
  | encoder
  deriving DecidableEq

/-- Run state of MotionAxis together with the configuration consulted by
MotorsSync._single_sync. model_solve is the stored solve closure built by
_init_steps_models (line 416); raw_deviation mirrors
EncoderHelper.raw_deviation; axes are identified by a natural number
(0 for x, 1 for y). -/
structure MotionAxis where
  name : ℕ
  move_dir : Int × DirLabel
  move_msteps : Int
  actual_msteps : Int
  check_msteps : Int
  magnitude : ℚ
  new_magnitude : ℚ
  curr_retry : ℕ
  max_retries : ℕ
  is_finished : Bool
  retry_tolerance : ℚ
  max_step_size : Int
  model_solve : ℚ → ℚ
  raw_deviation : ℚ
  chip : Chip

/-- Value returned by calc_deviation for a raw oracle value z: the
accelerometer helper returns the magnitude itself, the encoder helper
returns the absolute value of the signed deviation (line 249). -/
def measured (m : MotionAxis) (z : ℚ) : ℚ :=
  match m.chip with
  | .accel => z
  | .encoder => |z|

/-- State effect of calc_deviation: EncoderHelper._calc_position stores the
signed deviation in raw_deviation (line 251); the accelerometer helper
leaves the axis unchanged. -/
def measureState (m : MotionAxis) (z : ℚ) : MotionAxis :=
  match m.chip with
  | .accel => m
  | .encoder => { m with raw_deviation := z }

/-- Fatal in-run errors of the synchronization cycle. -/
inductive SyncErr where
  | noData
  | tooManyRetries
  deriving DecidableEq

/-- MotorsSync.measure: one excitation-and-measure cycle. The oracle list
supplies the successive scalar values produced by calc_deviation; an
exhausted oracle models a sensor that delivers no data. -/
def measure (m : MotionAxis) (oracle : List ℚ) :
    Except SyncErr (ℚ × MotionAxis × List ℚ) :=
  match oracle with
  | [] => .error .noData
  | z :: rest => .ok (measured m z, measureState m z, rest)

/-- MotorsSync.single_move (lines 686-694): issue a relative move of
move_msteps * move_dir[0] * dir microsteps and accumulate both offsets. -/
def single_move (m : MotionAxis) (dir : Int) : MotionAxis :=
  let mv := m.move_msteps * m.move_dir.1 * dir
  { m with actual_msteps := m.actual_msteps + mv,
           check_msteps := m.check_msteps + mv }

/-- detect_move_dir: AccelHelper issues one forward probe move and
re-measures (lines 129-140); EncoderHelper reads the sign of the last raw
deviation (lines 254-260). -/
def detect_move_dir (m : MotionAxis) (oracle : List ℚ) :
    Except SyncErr (MotionAxis × List ℚ) :=
  match m.chip with
  | .accel =>
    let m1 := single_move { m with move_dir := (1, .unknown) } 1
    match measure m1 oracle with
    | .error e => .error e
    | .ok (z, m2, rest) =>
      let m3 := { m2 with new_magnitude := z }
      let m4 :=
        if m3.new_magnitude > m3.magnitude then
          { m3 with move_dir := (-1, .backward) }
        else
          { m3 with move_dir := (1, .forward) }
      .ok ({ m4 with magnitude := m4.new_magnitude }, rest)
  | .encoder =>
    let m1 :=
      if m.raw_deviation < 0 then { m with move_dir := (-1, .backward) }
      else { m with move_dir := (1, .forward) }
    .ok ({ m1 with new_magnitude := m1.magnitude }, oracle)

/-- Outcome of one _single_sync call: the final axis state, the remaining
oracle, and the finish_measurements invocations (axis names) emitted while
handling the outcome. A raised error carries the axis state as mutated so
far, matching the in-place mutation in Python that survives the
exception. -/
inductive SyncResult where
  | ok : MotionAxis → List ℚ → List ℕ → SyncResult
  | err : SyncErr → MotionAxis → List ℕ → SyncResult

/-- Axis state carried by a SyncResult. -/
def SyncResult.state : SyncResult → MotionAxis
  | .ok m _ _ => m
  | .err _ m _ => m

/-- The raised error of a SyncResult, if any. -/
def SyncResult.errOf : SyncResult → Option SyncErr
  | .ok _ _ _ => none
  | .err e _ _ => some e

/-- The finish_measurements invocations recorded in a SyncResult. -/
def SyncResult.finishes : SyncResult → List ℕ
  | .ok _ _ f => f
  | .err _ _ f => f

/-- Body of MotorsSync._single_sync after direction detection
(lines 840-858): predict the clamped step count, move, re-measure and
classify the outcome. axes lists the names of all axes started in the run
(self.axes); the done transition of handle_state issues one
finish_measurements for m and the error transition one for every started
axis before raising
the terminal error (lines 753-770). -/
def singleSyncCore (axes : List ℕ) (m : MotionAxis) (oracle : List ℚ) :
    SyncResult :=
  let k := min (max (pyInt (m.model_solve m.new_magnitude)) 1) m.max_step_size
  let m1 := { m with move_msteps := k }
  let m2 := single_move m1 1
  match measure m2 oracle with
  | .error e => .err e m2 []
  | .ok (z, m3, rest) =>
    let m4 := { m3 with new_magnitude := z }
    if m4.new_magnitude > m4.magnitude then
      let m5 := single_move m4 (-1)
      if m5.retry_tolerance ≠ 0 ∧ m5.magnitude > m5.retry_tolerance then
        let m6 := { m5 with curr_retry := m5.curr_retry + 1 }
        if m6.curr_retry > m6.max_retries then
          .err .tooManyRetries m6 (m6.name :: axes)
        else
          .ok { m6 with move_dir := (m6.move_dir.1, .unknown) } rest []
      else
        .ok { m5 with is_finished := true } rest []
    else
      .ok { m4 with magnitude := m4.new_magnitude } rest []

/-- The re-measure step of the unknown-direction branch of _single_sync
(lines 830-833): re-measure when no move was issued yet or a retry is in
progress, setting both new_magnitude and magnitude. -/
def singleSyncStatic (m : MotionAxis) (oracle : List ℚ) :
    Except SyncErr (MotionAxis × List ℚ) :=
  if m.actual_msteps = 0 ∨ m.curr_retry ≠ 0 then
    match measure m oracle with
    | .error e => .error e
    | .ok (z, m1, rest) =>
      .ok ({ m1 with new_magnitude := z, magnitude := z }, rest)
  else .ok (m, oracle)

/-- MotorsSync._single_sync (lines 822-858). checkAxis requests the
refresh-only variant used by the synchronous scheduling policy. -/
def singleSync (axes : List ℕ) (checkAxis : Bool) (m : MotionAxis)
    (oracle : List ℚ) : SyncResult :=
  if checkAxis then
    match measure m oracle with
    | .error e => .err e m []
    | .ok (z, m1, rest) =>
      .ok { m1 with new_magnitude := z, magnitude := z } rest []
  else if m.move_dir.2 = DirLabel.unknown then
    match singleSyncStatic m oracle with
    | .error e => .err e m []
    | .ok (m1, rest) =>
      if m1.actual_msteps = 0 ∧ m1.retry_tolerance ≠ 0 ∧
          m1.new_magnitude < m1.retry_tolerance then
        .ok { m1 with is_finished := true } rest []
      else
        match detect_move_dir m1 rest with
        | .error e => .err e m1 []
        | .ok (m2, rest2) => singleSyncCore axes m2 rest2
  else
    singleSyncCore axes m oracle

/-- The solve closure for the default linear model with coefficients
a = 20000, b = 0: np.roots([20000, 0 - fx]) has the single real root
fx / 20000, and the max over that one root is the root itself. -/
def linearSolve20000 : ℚ → ℚ := fun fx => (fx - 0) / 20000

/-- Axis in the configuration of the C1 scenario: default linear model,
magnitude 8000, max_step_size 3, direction already detected. -/
def c1Axis : MotionAxis :=
  { name := 0, move_dir := (1, .forward), move_msteps := 2, actual_msteps := 5,
    check_msteps := 0, magnitude := 8000, new_magnitude := 8000,
    curr_retry := 0, max_retries := 0, is_finished := false,
    retry_tolerance := 0, max_step_size := 3,
    model_solve := linearSolve20000, raw_deviation := 0, chip := .accel }

/-- Axis exposing the rounding discrepancy of C1: the linear model predicts
52000 / 20000 = 2.6 steps. -/
def c1CexAxis : MotionAxis :=
  { name := 0, move_dir := (1, .forward), move_msteps := 2, actual_msteps := 5,
    check_msteps := 0, magnitude := 52000, new_magnitude := 52000,
    curr_retry := 0, max_retries := 0, is_finished := false,
    retry_tolerance := 0, max_step_size := 5,
    model_solve := linearSolve20000, raw_deviation := 0, chip := .accel }

/-- Axis one overshooting retry away from exhausting max_retries = 0, with a
configured retry tolerance of 100 and magnitude 200 above it. -/
def c4Axis : MotionAxis :=
  { name := 0, move_dir := (1, .forward), move_msteps := 2, actual_msteps := 5,
    check_msteps := 0, magnitude := 200, new_magnitude := 200,
    curr_retry := 0, max_retries := 0, is_finished := false,
    retry_tolerance := 100, max_step_size := 3,
    model_solve := linearSolve20000, raw_deviation := 0, chip := .accel }

/-- Axis with no retry tolerance configured (retry_tolerance = 0), about to
overshoot on its next correction attempt. -/
def c6Axis : MotionAxis :=
  { name := 0, move_dir := (1, .forward), move_msteps := 2, actual_msteps := 4,
    check_msteps := 0, magnitude := 100, new_magnitude := 100,
    curr_retry := 0, max_retries := 2, is_finished := false,
    retry_tolerance := 0, max_step_size := 3,
    model_solve := linearSolve20000, raw_deviation := 0, chip := .accel }

/-- The static zone range(n // 5, n // 3) of a burst of n samples
(lines 114 and 240). -/
def staticZone (n : ℕ) : List ℕ := List.range' (n / 5) (n / 3 - n / 5)

/-- Mean over the static-zone slice of a series: numpy fancy indexing
l[range(n // 5, n // 3)], with out-of-range indices reading the default 0.
The zone indices are computed from the raw burst length n, which can differ
from the length of l after filtering. -/
def staticMean (l : List ℚ) (n : ℕ) : ℚ :=
  npMean ((staticZone n).map (fun i => l.getD i 0))

/-- Mean of the five largest values: np.mean(np.sort(l)[-5:]) (line 124). -/
def top5Mean (l : List ℚ) : ℚ := npMean ((sortAsc l).drop (l.length - 5))

/-- AccelHelper._calc_magnitude (lines 114-127) from the per-sample
two-axis norm series onward: apply the chip filter, then subtract the
static-zone mean of the filtered series (zone indices from the raw length)
from the mean of its five largest values and round to two decimals. The
norm series has the same length as the raw burst and any non-negative
series arises as one. -/
def calc_magnitude (chipFilter : List ℚ → List ℚ) (mags : List ℚ) : ℚ :=
  let filtered := chipFilter mags
  around2 (top5Mean filtered - staticMean filtered mags.length)

/-- Insert index i into an index list kept sorted by increasing absolute
deviation, helper for np.argsort(np.abs(deviations)) (line 245). -/
def insertByAbs (devs : List ℚ) (i : ℕ) : List ℕ → List ℕ
  | [] => [i]
  | j :: js =>
    if |devs.getD i 0| ≤ |devs.getD j 0| then i :: j :: js
    else j :: insertByAbs devs i js

/-- np.argsort(np.abs(devs)): deviation indices sorted by increasing
absolute value. -/
def argsortAbs (devs : List ℚ) : List ℕ :=
  (List.range' 0 devs.length).foldr (insertByAbs devs) []

/-- The signed mean of the deviations at the five indices of largest
absolute deviation (EncoderHelper._calc_position, lines 242-246). -/
def selectedDeviationMean (positions : List ℚ) : ℚ :=
  let deviations :=
    positions.map (fun p => p - staticMean positions positions.length)
  npMean (((argsortAbs deviations).drop (deviations.length - 5)).map
    (fun i => deviations.getD i 0))

/-- EncoderHelper._calc_position (lines 236-252) composed with
normalize_encoder_pos (lines 231-234), with rd the axis rotation_distance.
The source divides (1 << 16) by the averaged deviation with no zero check;
that division has no rational value at a zero divisor, so the embedding
returns none there. -/
def calc_position (rd : ℚ) (positions : List ℚ) : Option ℚ :=
  let dev := selectedDeviationMean positions
  if dev = 0 then none
  else
    let angle := 65536 / dev
    some |around2 (rd / angle * 1000)|

/-- The polynomial entry of MATH_MODELS applied to a degree-1 coefficient
list [a, b] (the linear model): np.roots([a, b - fx]) yields the single real root
(fx - b) / a, and the max over its real part is that root. -/
noncomputable def polynomialSolveLin (a b fx : ℝ) : ℝ := (fx - b) / a

/-- The polynomial entry of MATH_MODELS applied to a degree-2 coefficient
list [a, b, c] (the quadratic model): np.roots([a, b, c - fx]) yields
(-b ± sqrt d) / (2a) for nonnegative discriminant d, and a conjugate
complex pair whose common real part is -b / (2a) otherwise; the source
takes the max over the real parts. -/
noncomputable def polynomialSolveQuad (a b c fx : ℝ) : ℝ :=
  if 0 ≤ discrim a b (c - fx) then
    max ((-b + Real.sqrt (discrim a b (c - fx))) / (2 * a))
        ((-b - Real.sqrt (discrim a b (c - fx))) / (2 * a))
  else -b / (2 * a)

/-- The power entry of MATH_MODELS (line 22): (fx / a) ** (1 / b). -/
noncomputable def mathModelPower (a b fx : ℝ) : ℝ := (fx / a) ^ ((1 : ℝ) / b)

/-- The root entry of MATH_MODELS (line 24). -/
noncomputable def mathModelRoot (a b fx : ℝ) : ℝ :=
  (fx ^ 2 - 2 * b * fx + b ^ 2) / a ^ 2

/-- The hyperbolic entry of MATH_MODELS (line 26). -/
noncomputable def mathModelHyperbolic (a b fx : ℝ) : ℝ := a / (fx - b)

/-- The exponential entry of MATH_MODELS (line 28): np.log((fx - c) / a) / b. -/
noncomputable def mathModelExponential (a b c fx : ℝ) : ℝ :=
  Real.log ((fx - c) / a) / b

/-- The enc_auto entry of MATH_MODELS (line 30): fx / 1e3 / a. -/
noncomputable def mathModelEncAuto (a fx : ℝ) : ℝ := fx / 1000 / a

/-- Spec-side predicate for the linear/quadratic row of the model table:
r is the maximum real root of the degree-1 polynomial a*x + b minus fx. -/
def isMaxRootLin (a b fx r : ℝ) : Prop :=
  a * r + b - fx = 0 ∧ ∀ x : ℝ, a * x + b - fx = 0 → x ≤ r

/-- Spec-side predicate: r is the maximum real root of the degree-2
polynomial a*x^2 + b*x + c minus fx. -/
def isMaxRootQuad (a b c fx r : ℝ) : Prop :=
  a * (r * r) + b * r + (c - fx) = 0 ∧
    ∀ x : ℝ, a * (x * x) + b * x + (c - fx) = 0 → x ≤ r

/-- C2: the recursive scalar estimator is claimed to compute the update gain
K = Pp*H / (H*Pp*H + R) with Pp the predicted covariance;
KalmanLiteFilter.update instead multiplies by the innovation covariance,
K = Pp*H * (H*Pp*H + R). On the single sample z = 1
with A = H = Q = R = P0 = 1 and x0 = 0 the code emits [6] while the claimed
recurrence emits [2/3]. -/
theorem c2_kalman_gain_multiplies_instead_of_dividing :
    ((KalmanLiteFilter.init 1 1 1 1 1 0).process_samples [1]).1 = [6] ∧
    specKalmanOutputs 1 1 1 1 0 1 [1] = [2 / 3] ∧
    ((6 : ℚ) ≠ 2 / 3) := by
  refine ⟨?_, ?_, by norm_num⟩
  · simp only [KalmanLiteFilter.process_samples, KalmanLiteFilter.init,
      KalmanLiteFilter.flush_data, kalmanRun, KalmanLiteFilter.update]
    norm_num
  · simp only [specKalmanOutputs, specKalmanStep]
    norm_num

/-- C9: process_samples reseeds the filter from (st_x, st_p) before touching
any sample, so its output depends only on the configuration fields; two
filters with identical A, H, Q, R, st_p, st_x produce identical output
sequences on identical inputs regardless of their current x and P. -/
theorem c9_process_samples_deterministic (k k' : KalmanLiteFilter)
    (hA : k.A = k'.A) (hH : k.H = k'.H) (hQ : k.Q = k'.Q) (hR : k.R = k'.R)
    (hp : k.st_p = k'.st_p) (hx : k.st_x = k'.st_x) (zs : List ℚ) :
    (k.process_samples zs).1 = (k'.process_samples zs).1 := by
  have h : k.flush_data = k'.flush_data := by
    cases k; cases k'
    simp_all [KalmanLiteFilter.flush_data]
  simp [KalmanLiteFilter.process_samples, h]

/-- Witness for C9: a filter whose estimate and covariance were dirtied by a
previous call produces the same outputs as a fresh filter with the same
configuration. -/
theorem c9_process_samples_deterministic_witness :
    (({ KalmanLiteFilter.init 2 1 (1 / 10) (1 / 100) (1 / 2) 1 with
        x := 99, P := 77 } : KalmanLiteFilter).process_samples [1, 2]).1 =
      ((KalmanLiteFilter.init 2 1 (1 / 10) (1 / 100) (1 / 2) 1).process_samples
        [1, 2]).1 :=
  c9_process_samples_deterministic _ _ rfl rfl rfl rfl rfl rfl [1, 2]

/-- C3: when the sample buffer stays empty, the guard of the wait-loop body
never lets either the return branch or the timeout branch execute, so
_wait_samples neither returns nor raises for any number of polls and any
clock — including clocks arbitrarily far past the 5-second deadline. -/
theorem c3_wait_never_times_out_without_data (lim : ℚ) (endTime : Option ℚ)
    (clock : ℕ → ℚ) (buffer : ℕ → Option ℚ)
    (hempty : ∀ n, buffer n = none) :
    ∀ fuel n, waitSamples lim endTime clock buffer fuel n = .running := by
  intro fuel
  induction fuel with
  | zero => intro n; rfl
  | succ f ih =>
    intro n
    rw [waitSamples, hempty n]
    exact ih (n + 1)

/-- Witness for C3: with request_end_time set, a deadline already at 0 and a
clock far past it, one hundred polls on an empty buffer still leave the loop
spinning. -/
theorem c3_wait_never_times_out_without_data_witness :
    waitSamples 0 (some 1) natClock emptyBuffer 100 0 = .running :=
  c3_wait_never_times_out_without_data 0 (some 1) natClock emptyBuffer
    (fun _ => rfl) 100 0

/-- C7 counterexample: with the configured median_size w = 3 (odd, ≥ 3) and
an input of 10 samples — longer than the window — the filter output has
length 10 - 2*3 = 4, not input_length - 2*(window/2) = 10 - 2 = 8 as the
claim states. -/
theorem c7_counterexample :
    (medianFilter 3 [1, 2, 3, 4, 5, 6, 7, 8, 9, 10]).length = 4 ∧
    10 - 2 * (3 / 2) = 8 ∧ (4 : ℕ) ≠ 8 := by
  refine ⟨?_, by norm_num, by norm_num⟩
  simp [medianFilter]

/-- C7 (amended): for every input longer than twice the configured window
value w, the output length of the median filter equals input_length - 2*w (the
configured value acts as a half-width, each output being the median of the
(2*w + 1)-wide slice centred at its index), and the identity filter returns
its input unchanged. -/
theorem c7_median_and_identity_filter_shape (w : ℕ) (samples : List ℚ)
    (h : 2 * w < samples.length) :
    (medianFilter w samples).length = samples.length - 2 * w ∧
    (∀ j, j < samples.length - 2 * w →
      (medianFilter w samples).getD j 0 =
        listMedian ((samples.drop j).take (2 * w + 1))) ∧
    identityFilter samples = samples := by
  have hlen : (medianFilter w samples).length = samples.length - 2 * w := by
    simp [medianFilter]
  refine ⟨hlen, ?_, rfl⟩
  intro j hj
  rw [List.getD_eq_getElem _ _ (by rw [hlen]; exact hj)]
  simp only [medianFilter, List.getElem_map, List.getElem_range']
  have hwj : w + 1 * j - w = j := by omega
  rw [hwj]

/-- Witness for C7 at w = 3 on a 10-sample input: output length 4, second
output the median of samples[1:8], identity unchanged. -/
theorem c7_median_and_identity_filter_shape_witness :
    2 * 3 < ([1, 2, 3, 4, 5, 6, 7, 8, 9, 10] : List ℚ).length ∧
    (medianFilter 3 [1, 2, 3, 4, 5, 6, 7, 8, 9, 10]).length = 10 - 2 * 3 ∧
    identityFilter [1, 2, 3, 4, 5, 6, 7, 8, 9, 10] =
      [1, 2, 3, 4, 5, 6, 7, 8, 9, 10] := by
  have h := c7_median_and_identity_filter_shape 3
    [1, 2, 3, 4, 5, 6, 7, 8, 9, 10] (by norm_num)
  exact ⟨by norm_num, h.1, h.2.2⟩

/-- Recording the signed deviation leaves the magnitude unchanged. -/
@[simp] theorem measureState_magnitude (m : MotionAxis) (z : ℚ) :
    (measureState m z).magnitude = m.magnitude := by
  cases h : m.chip <;> simp [measureState, h]

/-- Recording the signed deviation leaves move_msteps unchanged. -/
@[simp] theorem measureState_move_msteps (m : MotionAxis) (z : ℚ) :
    (measureState m z).move_msteps = m.move_msteps := by
  cases h : m.chip <;> simp [measureState, h]

/-- Recording the signed deviation leaves move_dir unchanged. -/
@[simp] theorem measureState_move_dir (m : MotionAxis) (z : ℚ) :
    (measureState m z).move_dir = m.move_dir := by
  cases h : m.chip <;> simp [measureState, h]

/-- Recording the signed deviation leaves actual_msteps unchanged. -/
@[simp] theorem measureState_actual_msteps (m : MotionAxis) (z : ℚ) :
    (measureState m z).actual_msteps = m.actual_msteps := by
  cases h : m.chip <;> simp [measureState, h]

/-- Recording the signed deviation leaves check_msteps unchanged. -/
@[simp] theorem measureState_check_msteps (m : MotionAxis) (z : ℚ) :
    (measureState m z).check_msteps = m.check_msteps := by
  cases h : m.chip <;> simp [measureState, h]

/-- Recording the signed deviation leaves curr_retry unchanged. -/
@[simp] theorem measureState_curr_retry (m : MotionAxis) (z : ℚ) :
    (measureState m z).curr_retry = m.curr_retry := by
  cases h : m.chip <;> simp [measureState, h]

/-- Recording the signed deviation leaves max_retries unchanged. -/
@[simp] theorem measureState_max_retries (m : MotionAxis) (z : ℚ) :
    (measureState m z).max_retries = m.max_retries := by
  cases h : m.chip <;> simp [measureState, h]

/-- Recording the signed deviation leaves is_finished unchanged. -/
@[simp] theorem measureState_is_finished (m : MotionAxis) (z : ℚ) :
    (measureState m z).is_finished = m.is_finished := by
  cases h : m.chip <;> simp [measureState, h]

/-- Recording the signed deviation leaves retry_tolerance unchanged. -/
@[simp] theorem measureState_retry_tolerance (m : MotionAxis) (z : ℚ) :
    (measureState m z).retry_tolerance = m.retry_tolerance := by
  cases h : m.chip <;> simp [measureState, h]

/-- Recording the signed deviation leaves max_step_size unchanged. -/
@[simp] theorem measureState_max_step_size (m : MotionAxis) (z : ℚ) :
    (measureState m z).max_step_size = m.max_step_size := by
  cases h : m.chip <;> simp [measureState, h]

/-- Recording the signed deviation leaves the axis name unchanged. -/
@[simp] theorem measureState_name (m : MotionAxis) (z : ℚ) :
    (measureState m z).name = m.name := by
  cases h : m.chip <;> simp [measureState, h]

/-- Recording the signed deviation leaves the model closure unchanged. -/
@[simp] theorem measureState_model_solve (m : MotionAxis) (z : ℚ) :
    (measureState m z).model_solve = m.model_solve := by
  cases h : m.chip <;> simp [measureState, h]

/-- Recording the signed deviation leaves the chip variant unchanged. -/
@[simp] theorem measureState_chip (m : MotionAxis) (z : ℚ) :
    (measureState m z).chip = m.chip := by
  cases h : m.chip <;> simp [measureState, h]

/-- C1 counterexample: with the linear model a = 20000, b = 0, magnitude
52000 and max_step_size 5 the prediction is 2.6; the code commands
int(2.6) = 2 microsteps (truncation toward zero) while the claimed
clamp(round(2.6), 1, 5) is 3. -/
theorem c1_counterexample :
    (singleSync [] false c1CexAxis [0]).state.move_msteps = 2 ∧
    min (max (round (c1CexAxis.model_solve c1CexAxis.magnitude)) 1)
      c1CexAxis.max_step_size = 3 ∧
    (2 : ℤ) ≠ 3 := by
  refine ⟨?_, ?_, by norm_num⟩
  · simp [singleSync, singleSyncCore, measure, measured, measureState,
      single_move, c1CexAxis, linearSolve20000, pyInt, SyncResult.state]
    norm_num
  · simp only [c1CexAxis, linearSolve20000]
    norm_num [round_eq]

/-- C1 (amended): on every correction attempt with a detected direction the
commanded microstep count equals clamp(int(solve(magnitude)), 1,
max_step_size) where int truncates toward zero; the model is evaluated at
new_magnitude, which equals the current magnitude at this point of the
cycle. -/
theorem c1_commanded_steps_clamped_truncation (axes : List ℕ)
    (m : MotionAxis) (z : ℚ) (rest : List ℚ)
    (hdir : m.move_dir.2 ≠ DirLabel.unknown)
    (hmag : m.new_magnitude = m.magnitude) :
    (singleSync axes false m (z :: rest)).state.move_msteps =
      min (max (pyInt (m.model_solve m.magnitude)) 1) m.max_step_size := by
  rw [← hmag]
  simp only [singleSync, Bool.false_eq_true, if_false, if_neg hdir]
  simp only [singleSyncCore, measure, single_move]
  split_ifs <;> simp [SyncResult.state]

/-- Witness for C1 at the spec scenario: linear model a = 20000, b = 0 and
magnitude 8000 predict 0.4, truncated to 0 and clamped up to exactly 1
commanded microstep. -/
theorem c1_commanded_steps_clamped_truncation_witness :
    c1Axis.move_dir.2 ≠ DirLabel.unknown ∧
    (singleSync [] false c1Axis [0]).state.move_msteps = 1 := by
  refine ⟨by decide, ?_⟩
  have h := c1_commanded_steps_clamped_truncation [] c1Axis 0 [] (by decide) rfl
  rw [h]
  simp only [c1Axis, linearSolve20000, pyInt]
  norm_num

/-- C6: on an overshooting correction attempt of an axis with no retry
tolerance configured (retry_tolerance = 0), the just-issued move is
reverted so the cumulative offset returns to its pre-move value, the axis
is marked finished, the axis magnitude keeps the pre-overshoot value, and
no error is raised (and no finalization event is emitted). -/
theorem c6_overshoot_without_tolerance_finishes (axes : List ℕ)
    (m : MotionAxis) (z : ℚ) (rest : List ℚ)
    (hdir : m.move_dir.2 ≠ DirLabel.unknown)
    (htol : m.retry_tolerance = 0)
    (hover : m.magnitude < measured m z) :
    (singleSync axes false m (z :: rest)).errOf = none ∧
    (singleSync axes false m (z :: rest)).state.is_finished = true ∧
    (singleSync axes false m (z :: rest)).state.actual_msteps =
      m.actual_msteps ∧
    (singleSync axes false m (z :: rest)).state.magnitude = m.magnitude ∧
    (singleSync axes false m (z :: rest)).finishes = [] := by
  cases hchip : m.chip with
  | accel =>
    simp only [measured, hchip] at hover
    simp only [singleSync, Bool.false_eq_true, if_false, if_neg hdir,
      singleSyncCore, measure, measured, measureState, single_move, hchip]
    rw [if_pos (gt_iff_lt.mpr hover), if_neg (fun hc => hc.1 htol)]
    refine ⟨rfl, rfl, ?_, rfl, rfl⟩
    simp only [SyncResult.state]
    ring
  | encoder =>
    simp only [measured, hchip] at hover
    simp only [singleSync, Bool.false_eq_true, if_false, if_neg hdir,
      singleSyncCore, measure, measured, measureState, single_move, hchip]
    rw [if_pos (gt_iff_lt.mpr hover), if_neg (fun hc => hc.1 htol)]
    refine ⟨rfl, rfl, ?_, rfl, rfl⟩
    simp only [SyncResult.state]
    ring

/-- Witness for C6: a concrete axis with retry_tolerance = 0 and magnitude
100 overshoots to 200; the run reports no error, the axis is finished, the
offset is back at its pre-move value 4 and the magnitude stays 100. -/
theorem c6_overshoot_without_tolerance_finishes_witness :
    (singleSync [0] false c6Axis [200]).errOf = none ∧
    (singleSync [0] false c6Axis [200]).state.is_finished = true ∧
    (singleSync [0] false c6Axis [200]).state.actual_msteps =
      c6Axis.actual_msteps ∧
    (singleSync [0] false c6Axis [200]).state.magnitude = c6Axis.magnitude ∧
    (singleSync [0] false c6Axis [200]).finishes = [] :=
  c6_overshoot_without_tolerance_finishes [0] c6Axis 200 []
    (by decide) rfl (by norm_num [c6Axis, measured])

/-- C4 counterexample: a run with started axes [0, 1] in which axis 0
exhausts its retries records the finish_measurements sequence [0, 0, 1]:
the failing axis 0 is finalized twice (once by the done transition of
handle_state, once again inside its error transition), not exactly once as
the claim states. -/
theorem c4_counterexample :
    (singleSync [0, 1] false c4Axis [300]).errOf =
      some SyncErr.tooManyRetries ∧
    (singleSync [0, 1] false c4Axis [300]).finishes = [0, 0, 1] ∧
    ((singleSync [0, 1] false c4Axis [300]).finishes.count 0 = 2 ∧
      (2 : ℕ) ≠ 1) := by
  have hrun : singleSync [0, 1] false c4Axis [300] =
      SyncResult.err SyncErr.tooManyRetries
        ((singleSync [0, 1] false c4Axis [300]).state) [0, 0, 1] := by
    simp [singleSync, singleSyncCore, measure, measured, measureState,
      single_move, c4Axis, linearSolve20000, pyInt, SyncResult.state]
    norm_num
  rw [hrun]
  exact ⟨rfl, rfl, by decide, by decide⟩

/-- C4 (amended): when the overshoot-retry counter of an axis exceeds
max_retries, the run raises the terminal too-many-retries error, and the
finish_measurements invocations recorded before it propagates are one for
the failing axis (its done finalization) followed by one for every axis
started in the run — so the failing axis is finalized twice and every
other started axis exactly once. -/
theorem c4_retry_exhaustion_finalizes_axes (axes : List ℕ) (m : MotionAxis)
    (z : ℚ) (rest : List ℚ)
    (hdir : m.move_dir.2 ≠ DirLabel.unknown)
    (htol : m.retry_tolerance ≠ 0)
    (hmagtol : m.retry_tolerance < m.magnitude)
    (hover : m.magnitude < measured m z)
    (hretry : m.max_retries ≤ m.curr_retry) :
    (singleSync axes false m (z :: rest)).errOf =
      some SyncErr.tooManyRetries ∧
    (singleSync axes false m (z :: rest)).finishes = m.name :: axes := by
  cases hchip : m.chip with
  | accel =>
    simp only [measured, hchip] at hover
    simp only [singleSync, Bool.false_eq_true, if_false, if_neg hdir,
      singleSyncCore, measure, measured, measureState, single_move, hchip]
    rw [if_pos (gt_iff_lt.mpr hover),
      if_pos (And.intro htol (gt_iff_lt.mpr hmagtol)),
      if_pos (gt_iff_lt.mpr (Nat.lt_succ_of_le hretry))]
    exact ⟨rfl, rfl⟩
  | encoder =>
    simp only [measured, hchip] at hover
    simp only [singleSync, Bool.false_eq_true, if_false, if_neg hdir,
      singleSyncCore, measure, measured, measureState, single_move, hchip]
    rw [if_pos (gt_iff_lt.mpr hover),
      if_pos (And.intro htol (gt_iff_lt.mpr hmagtol)),
      if_pos (gt_iff_lt.mpr (Nat.lt_succ_of_le hretry))]
    exact ⟨rfl, rfl⟩

/-- Witness for C4 at a run whose started axes are [0, 1] with failing axis
0: the terminal error is raised and the finalization sequence is
0 :: [0, 1]. -/
theorem c4_retry_exhaustion_finalizes_axes_witness :
    (singleSync [0, 1] false c4Axis [300]).errOf =
      some SyncErr.tooManyRetries ∧
    (singleSync [0, 1] false c4Axis [300]).finishes = c4Axis.name :: [0, 1] :=
  c4_retry_exhaustion_finalizes_axes [0, 1] c4Axis 300 []
    (by decide) (by norm_num [c4Axis]) (by norm_num [c4Axis])
    (by norm_num [c4Axis, measured]) (by norm_num [c4Axis])

/-- Rounding to two decimals preserves non-negativity. -/
theorem around2_nonneg (q : ℚ) (h : 0 ≤ q) : 0 ≤ around2 q := by
  have hf : (0 : ℤ) ≤ ⌊q * 100⌋ := Int.floor_nonneg.mpr (by positivity)
  have hv : (0 : ℤ) ≤ roundHalfEven (q * 100) := by
    simp only [roundHalfEven]
    split_ifs <;> omega
  have hc : (0 : ℚ) ≤ (roundHalfEven (q * 100) : ℚ) := by exact_mod_cast hv
  exact div_nonneg hc (by norm_num)

/-- C5 counterexample: a burst whose static zone holds the largest filtered
value. With the identity filter and norm series [0, 0, 100, 0, 0, 0, 0, 0,
0, 0] (n = 10, static zone = [2]), the baseline is 100 while the top-5 mean
is 20, so _calc_magnitude returns -80 < 0. -/
theorem c5_counterexample :
    calc_magnitude identityFilter [0, 0, 100, 0, 0, 0, 0, 0, 0, 0] = -80 ∧
    (-80 : ℚ) < 0 := by
  constructor
  · norm_num [calc_magnitude, identityFilter, top5Mean, staticMean,
      staticZone, npMean, sortAsc, insertSorted, around2, roundHalfEven,
      List.range']
  · norm_num

/-- C5 (amended): the position-based extractor returns a non-negative
magnitude whenever it returns one (it is an absolute value); the
vibration-based extractor returns the rounded difference of the top-5 mean
and the static baseline, which is non-negative whenever the baseline does
not exceed the top-5 mean but can be negative otherwise. -/
theorem c5_extractor_magnitude_sign (chipFilter : List ℚ → List ℚ)
    (mags ps : List ℚ) (rd v : ℚ)
    (hpos : calc_position rd ps = some v)
    (hbase : staticMean (chipFilter mags) mags.length ≤
      top5Mean (chipFilter mags)) :
    0 ≤ v ∧ 0 ≤ calc_magnitude chipFilter mags := by
  constructor
  · simp only [calc_position] at hpos
    split at hpos
    · exact absurd hpos (by simp)
    · rw [← Option.some.inj hpos]
      exact abs_nonneg _
  · show 0 ≤ around2 (top5Mean (chipFilter mags) -
      staticMean (chipFilter mags) mags.length)
    exact around2_nonneg _ (sub_nonneg.mpr hbase)

/-- Witness for C5: a position burst converting to the magnitude 4000 ≥ 0
and a vibration burst with baseline 0 below its top-5 mean 20. -/
theorem c5_extractor_magnitude_sign_witness :
    calc_position 65536 [0, 4, 0, 0, 0, 0] = some 4000 ∧
    0 ≤ (4000 : ℚ) ∧
    0 ≤ calc_magnitude identityFilter [0, 0, 0, 0, 0, 100] := by
  have hp : calc_position 65536 [0, 4, 0, 0, 0, 0] = some 4000 := by
    norm_num [calc_position, selectedDeviationMean, staticMean, staticZone,
      npMean, argsortAbs, insertByAbs, around2, roundHalfEven, List.range']
  have hb : staticMean (identityFilter [0, 0, 0, 0, 0, 100]) 6 ≤
      top5Mean (identityFilter [0, 0, 0, 0, 0, 100]) := by
    norm_num [identityFilter, top5Mean, staticMean, staticZone, npMean,
      sortAsc, insertSorted, List.range']
  have h := c5_extractor_magnitude_sign identityFilter
    [0, 0, 0, 0, 0, 100] [0, 4, 0, 0, 0, 0] 65536 4000 hp hb
  exact ⟨hp, h.1, h.2⟩

/-- A list all of whose elements equal c and which is nonempty has mean c. -/
theorem npMean_const (l : List ℚ) (c : ℚ) (h : ∀ x ∈ l, x = c)
    (hne : l ≠ []) : npMean l = c := by
  have hsum : l.sum = l.length * c := by
    induction l with
    | nil => simp
    | cons a t ih =>
      have ha : a = c := h a (by simp)
      have ht : t.sum = t.length * c := by
        rcases t with _ | ⟨b, t⟩
        · simp
        · exact ih (fun x hx => h x (by simp [hx])) (by simp)
      simp [ha, ht]
      ring
  have hlen : (l.length : ℚ) ≠ 0 :=
    Nat.cast_ne_zero.mpr (fun h0 => hne (List.length_eq_zero.mp h0))
  rw [npMean, hsum, mul_comm, mul_div_assoc, div_self hlen, mul_one]

/-- A list all of whose elements are 0 has mean 0 (also when empty). -/
theorem npMean_zero (l : List ℚ) (h : ∀ x ∈ l, x = 0) : npMean l = 0 := by
  rw [npMean, List.sum_eq_zero h, zero_div]

/-- getD with default 0 on a list of zeros yields 0 at every index. -/
theorem getD_zero (l : List ℚ) (h : ∀ x ∈ l, x = 0) (i : ℕ) :
    l.getD i 0 = 0 := by
  induction l generalizing i with
  | nil => simp
  | cons a t ih =>
    cases i with
    | zero => simpa using h a (by simp)
    | succ j => simpa using ih (fun x hx => h x (by simp [hx])) j

/-- Every static-zone index is inside the burst. -/
theorem staticZone_mem_lt (n i : ℕ) (hi : i ∈ staticZone n) : i < n := by
  rw [staticZone, List.mem_range'_1] at hi
  have h1 : i < n / 5 + (n / 3 - n / 5) := hi.2
  have h2 : n / 5 ≤ n / 3 := Nat.div_le_div_left (by norm_num) (by norm_num)
  have h3 : n / 3 ≤ n := Nat.div_le_self n 3
  omega

/-- C10: the conversion from encoder ticks to length divides (1 << 16) by
the signed mean of the selected deviations, so it is only defined when that
mean is nonzero; a burst whose samples all equal the static baseline (for
example, all equal) has selected-deviation mean 0 and _calc_position has no
value on it. -/
theorem c10_calc_position_zero_deviation (rd c : ℚ) (ps : List ℚ)
    (hall : ∀ x ∈ ps, x = c) (hz : staticZone ps.length ≠ []) :
    selectedDeviationMean ps = 0 ∧ calc_position rd ps = none := by
  have hstatic : staticMean ps ps.length = c := by
    apply npMean_const
    · intro y hy
      rcases List.mem_map.mp hy with ⟨i, hi, rfl⟩
      have hlt : i < ps.length := staticZone_mem_lt ps.length i hi
      rw [List.getD_eq_getElem ps 0 hlt]
      exact hall _ (List.getElem_mem hlt)
    · simpa using hz
  have hdevs : ∀ x ∈ ps.map (fun p => p - staticMean ps ps.length), x = 0 := by
    intro x hx
    rcases List.mem_map.mp hx with ⟨p, hp, rfl⟩
    rw [hstatic, hall p hp, sub_self]
  have hdev : selectedDeviationMean ps = 0 := by
    simp only [selectedDeviationMean]
    apply npMean_zero
    intro x hx
    rcases List.mem_map.mp hx with ⟨i, _, rfl⟩
    exact getD_zero _ hdevs i
  refine ⟨hdev, ?_⟩
  simp [calc_position, hdev]

/-- Witness for C10: a burst of ten equal samples has selected-deviation
mean 0 and no position value. -/
theorem c10_calc_position_zero_deviation_witness :
    selectedDeviationMean [7, 7, 7, 7, 7, 7, 7, 7, 7, 7] = 0 ∧
    calc_position 40 [7, 7, 7, 7, 7, 7, 7, 7, 7, 7] = none :=
  c10_calc_position_zero_deviation 40 7 [7, 7, 7, 7, 7, 7, 7, 7, 7, 7]
    (by norm_num) (by norm_num [staticZone, List.range'])

/-- C8: each MATH_MODELS entry computes the per-kind formula of the spec
table: the linear and quadratic solves are the maximum real root of the
calibrated polynomial minus fx (for a nonzero leading coefficient, and for
the quadratic a nonnegative discriminant so that real roots exist), and the
power, root, hyperbolic, exponential and rotary-auto solves equal their
table formulas. -/
theorem c8_model_solve_formulas (a b c fx : ℝ) (ha : a ≠ 0)
    (hd : 0 ≤ discrim a b (c - fx)) :
    isMaxRootLin a b fx (polynomialSolveLin a b fx) ∧
    isMaxRootQuad a b c fx (polynomialSolveQuad a b c fx) ∧
    mathModelPower a b fx = (fx / a) ^ ((1 : ℝ) / b) ∧
    mathModelRoot a b fx = (fx ^ 2 - 2 * b * fx + b ^ 2) / a ^ 2 ∧
    mathModelHyperbolic a b fx = a / (fx - b) ∧
    mathModelExponential a b c fx = Real.log ((fx - c) / a) / b ∧
    mathModelEncAuto a fx = fx / 1000 / a := by
  have hs : discrim a b (c - fx) =
      Real.sqrt (discrim a b (c - fx)) * Real.sqrt (discrim a b (c - fx)) :=
    (Real.mul_self_sqrt hd).symm
  have key : ∀ x : ℝ, a * (x * x) + b * x + (c - fx) = 0 ↔
      x = (-b + Real.sqrt (discrim a b (c - fx))) / (2 * a) ∨
      x = (-b - Real.sqrt (discrim a b (c - fx))) / (2 * a) :=
    fun x => quadratic_eq_zero_iff ha hs x
  refine ⟨⟨?_, ?_⟩, ⟨?_, ?_⟩, rfl, rfl, rfl, rfl, rfl⟩
  · rw [polynomialSolveLin]
    field_simp
  · intro x hx
    have hxe : x = (fx - b) / a := by
      field_simp
      linarith
    rw [hxe, polynomialSolveLin]
  · rw [polynomialSolveQuad, if_pos hd]
    rcases max_choice ((-b + Real.sqrt (discrim a b (c - fx))) / (2 * a))
      ((-b - Real.sqrt (discrim a b (c - fx))) / (2 * a)) with hm | hm
    · rw [hm]
      exact (key _).mpr (Or.inl rfl)
    · rw [hm]
      exact (key _).mpr (Or.inr rfl)
  · intro x hx
    rw [polynomialSolveQuad, if_pos hd]
    rcases (key x).mp hx with h | h
    · rw [h]
      exact le_max_left _ _
    · rw [h]
      exact le_max_right _ _

/-- Witness for C8 with the linear/quadratic models a = 1, b = 0, c = 0 at
fx = 4 (discriminant 16 ≥ 0): the solves are maximum real roots, and the
linear solve evaluates to 4. -/
theorem c8_model_solve_formulas_witness :
    isMaxRootLin 1 0 4 (polynomialSolveLin 1 0 4) ∧
    isMaxRootQuad 1 0 0 4 (polynomialSolveQuad 1 0 0 4) ∧
    polynomialSolveLin 1 0 4 = 4 := by
  have h := c8_model_solve_formulas 1 0 0 4 (by norm_num)
    (by norm_num [discrim])
  exact ⟨h.1, h.2.1, by norm_num [polynomialSolveLin]⟩

end MSync
